import Mathlib

/-!
# ConnectYou login page (`src/pages/login.js`)

A shallow embedding of the `Login` component: the JavaScript values it
inspects, the error-code lookup `getFirebaseAuthErrorMessage`, the submit
handler `handleSubmit`, the password-reset handler `resetPassword`, the
redirect effect, the render guard and the rendered element tree.

Calls into the authentication provider, the router and the toast library
are recorded as a trace of `Effect`s; the provider's answers are taken from
an environment `Env`, since they are decided outside this file.
-/

namespace ConnectYou

/-! ## JavaScript values -/

/-- The JavaScript values the component can observe. `number` carries the
integral doubles and `nan` stands for `NaN`; an object is known by its
reference only. -/
inductive JSVal where
  | undefined
  | null
  | bool (b : Bool)
  | number (n : Int)
  | nan
  | str (s : String)
  | obj (ref : Nat)
  deriving DecidableEq, Repr

/-- ECMAScript `ToBoolean`: `undefined`, `null`, `false`, `0`, `NaN` and the
empty string are falsy, every other value is truthy. -/
def toBoolean : JSVal → Bool
  | .undefined => false
  | .null => false
  | .bool b => b
  | .number n => n != 0
  | .nan => false
  | .str s => s != ""
  | .obj _ => true

/-- Strict equality `===`: same type and same value, `NaN` equal to nothing,
objects compared by reference. A `switch` compares with it. -/
def strictEq : JSVal → JSVal → Bool
  | .undefined, .undefined => true
  | .null, .null => true
  | .bool a, .bool b => a == b
  | .number a, .number b => a == b
  | .str a, .str b => a == b
  | .obj a, .obj b => a == b
  | _, _ => false

/-- Logical not `!v`. -/
def jsNot (v : JSVal) : JSVal := .bool (!toBoolean v)

/-- Logical and `a && b`: the left operand when it is falsy, else the right. -/
def jsAnd (a b : JSVal) : JSVal := if toBoolean a then b else a

/-- Logical or `a || b`: the left operand when it is truthy, else the right. -/
def jsOr (a b : JSVal) : JSVal := if toBoolean a then a else b

/-! ## Error-code lookup (lines 52-62) -/

/-- The `switch` of `getFirebaseAuthErrorMessage`: two `case` labels compared
with `===` in order, then `default`. -/
def getFirebaseAuthErrorMessage (errorCode : JSVal) : String :=
  if strictEq errorCode (.str "auth/user-not-found") then
    "User not found. Please check your email."
  else if strictEq errorCode (.str "auth/wrong-password") then
    "Invalid password. Please try again."
  else
    "Authentication failed. Please try again."

/-! ## Effects and the environment -/

/-- The federated sign-in providers of the `firebase/auth` library. The file
imports and instantiates `GoogleAuthProvider` only. -/
inductive AuthProvider where
  | google
  | facebook
  | github
  | twitter
  deriving DecidableEq, Repr

/-- Line 22: `const gProvider = new GoogleAuthProvider()`. -/
def gProvider : AuthProvider := .google

/-- The kind of a toast on screen. -/
inductive ToastKind where
  | loading
  | success
  | error
  deriving DecidableEq, Repr

/-- What the component does to the outside world, in the order it does it. -/
inductive Effect where
  | preventDefault
  | signInWithEmailAndPassword (auth email password : JSVal)
  | sendPasswordResetEmail (auth email : JSVal)
  | signInWithPopup (auth : JSVal) (provider : AuthProvider)
  | toast (kind : ToastKind) (message : String) (autoClose : Option Nat)
  | routerPush (path : String)
  | setEmail (value : JSVal)
  deriving DecidableEq, Repr

/-- The error object a rejected provider call carries; `code` is `undefined`
when the object has no such property. -/
structure AuthError where
  code : JSVal
  deriving DecidableEq, Repr

/-- How an awaited provider call settles. -/
inductive Outcome where
  | resolved
  | rejected (error : AuthError)
  deriving DecidableEq, Repr

/-- How a handler ends: it returns (its promise resolves), or an exception
leaves it (its promise rejects). -/
inductive Completion where
  | returned
  | threw (error : String)
  deriving DecidableEq, Repr

/-- The imports the handlers call: the `auth` handle of `@/firebase/firebase`
and the answers of the three `firebase/auth` functions. -/
structure Env where
  auth : JSVal
  signInWithEmailAndPassword : JSVal → JSVal → JSVal → Outcome
  sendPasswordResetEmail : JSVal → JSVal → Outcome
  signInWithPopup : JSVal → AuthProvider → Outcome

/-- A form control, read through its `value`. -/
structure FormField where
  value : JSVal
  deriving DecidableEq, Repr

/-- A submit event: `target` is the form, indexed by control position. -/
structure SubmitEvent where
  target : List FormField
  deriving DecidableEq, Repr

/-- A change event on an input: `target.value` is the text typed so far. -/
structure ChangeEvent where
  targetValue : JSVal
  deriving DecidableEq, Repr

/-- The toasts of a trace, in order. -/
def toasts : List Effect → List (ToastKind × String)
  | [] => []
  | .toast k m _ :: rest => (k, m) :: toasts rest
  | _ :: rest => toasts rest

/-- The messages of the error toasts of a trace, in order. -/
def errorToasts : List Effect → List String
  | [] => []
  | .toast .error m _ :: rest => m :: errorToasts rest
  | _ :: rest => errorToasts rest

/-- The password sign-in calls of a trace, as (auth, email, password). -/
def signInCalls : List Effect → List (JSVal × JSVal × JSVal)
  | [] => []
  | .signInWithEmailAndPassword a e p :: rest => (a, e, p) :: signInCalls rest
  | _ :: rest => signInCalls rest

/-! ## The submit handler (lines 39-50) -/

/-- The handler `handleSubmit`: `e.preventDefault()`, then `e.target[0].value`
and `e.target[1].value` (reading `.value` of a missing control throws a
`TypeError`), then the awaited sign-in inside `try`, and in `catch` the error
toast with the looked-up message. -/
def handleSubmit (env : Env) (e : SubmitEvent) : List Effect × Completion :=
  let t0 := [Effect.preventDefault]
  match e.target[0]? with
  | none => (t0, .threw "TypeError")
  | some f0 =>
    let email := f0.value
    match e.target[1]? with
    | none => (t0, .threw "TypeError")
    | some f1 =>
      let password := f1.value
      let t1 := t0 ++ [Effect.signInWithEmailAndPassword env.auth email password]
      match env.signInWithEmailAndPassword env.auth email password with
      | .resolved => (t1, .returned)
      | .rejected error =>
        let errorMessage := getFirebaseAuthErrorMessage error.code
        (t1 ++ [Effect.toast .error errorMessage none], .returned)

/-! ## Password reset (lines 64-82) -/

/-- The three messages handed to `toast.promise`. -/
structure PromiseMessages where
  pending : String
  success : String
  error : String

/-- The function `toast.promise` of react-toastify, per its documentation: a
loading toast with the `pending` message is shown, the task is started, and
the toast becomes a success toast with the `success` message when the task
resolves, an error toast with the `error` message when it rejects. The call
itself returns at once and throws nothing. -/
def toastPromise (task : List Effect × Outcome) (messages : PromiseMessages)
    (autoClose : Nat) : List Effect × Completion :=
  let shown := [Effect.toast .loading messages.pending (some autoClose)] ++ task.1
  match task.2 with
  | .resolved => (shown ++ [Effect.toast .success messages.success (some autoClose)], .returned)
  | .rejected _ => (shown ++ [Effect.toast .error messages.error (some autoClose)], .returned)

/-- The handler `resetPassword`: `toast.promise` around the awaited
`sendPasswordResetEmail(auth, email)` with the `email` state, inside a `try`
whose `catch` block is empty. -/
def resetPassword (env : Env) (email : JSVal) : List Effect × Completion :=
  match toastPromise
      ([Effect.sendPasswordResetEmail env.auth email], env.sendPasswordResetEmail env.auth email)
      { pending := "Generating reset link",
        success := "Reset email sent to your registered email.",
        error := "You may have entered the wrong email!" }
      5000 with
  | (t, .returned) => (t, .returned)
  | (t, .threw _) => (t, .returned)

/-! ## Google sign-in (lines 84-90) -/

/-- The handler `signInWithGoogle`: the awaited `signInWithPopup(auth,
gProvider)` inside a `try` whose `catch` block is empty. -/
def signInWithGoogle (env : Env) : List Effect × Completion :=
  let t := [Effect.signInWithPopup env.auth gProvider]
  match env.signInWithPopup env.auth gProvider with
  | .resolved => (t, .returned)
  | .rejected _ => (t, .returned)

/-! ## Redirect effect (lines 29-37) -/

/-- The callback `pushToHome`: `router.push("/")`. -/
def pushToHome : List Effect := [Effect.routerPush "/"]

/-- The body of the `useEffect`: `if (!isLoading && currentUser) pushToHome()`. -/
def redirectEffect (isLoading currentUser : JSVal) : List Effect :=
  if toBoolean (jsAnd (jsNot isLoading) currentUser) then pushToHome else []

/-! ## The rendered tree (lines 92-165) -/

/-- The functions of the component that the markup can bind to an event:
the three named handlers and the inline `onChange` arrow function. -/
inductive Handler where
  | handleSubmit
  | resetPassword
  | signInWithGoogle
  | onEmailChange
  deriving DecidableEq, Repr

/-- What a bound handler does when its event fires, given the `email` state
and the event it receives. The inline `onChange` is
`(e) => setEmail(e.target.value)`. -/
def Handler.run (env : Env) (email : JSVal) (submit : SubmitEvent) (change : ChangeEvent) :
    Handler → List Effect
  | .handleSubmit => (ConnectYou.handleSubmit env submit).1
  | .resetPassword => (ConnectYou.resetPassword env email).1
  | .signInWithGoogle => (ConnectYou.signInWithGoogle env).1
  | .onEmailChange => [Effect.setEmail change.targetValue]

/-- An attribute of a JSX element: a plain string attribute, or an event
property bound to a handler. -/
inductive Attr where
  | attr (name value : String)
  | on (event : String) (handler : Handler)
  deriving DecidableEq, Repr

/-- A JSX element: a tag (a host tag, a component name, or the empty tag of a
fragment) with attributes and children, or a text node. JSX comments leave
nothing in the tree. -/
inductive Element where
  | el (tag : String) (attrs : List Attr) (children : List Element)
  | text (content : String)
  deriving Repr

/-- The tag of an element; a text node has none. -/
def Element.tag : Element → Option String
  | .el t _ _ => some t
  | .text _ => none

/-- The handler of an event property. -/
def Attr.boundHandler : Attr → Option Handler
  | .attr _ _ => none
  | .on _ h => some h

mutual
/-- The handlers bound anywhere in an element, in document order. -/
def Element.handlers : Element → List Handler
  | .el _ attrs children => attrs.filterMap Attr.boundHandler ++ handlersOfList children
  | .text _ => []
/-- The handlers bound anywhere in a list of elements. -/
def handlersOfList : List Element → List Handler
  | [] => []
  | c :: cs => c.handlers ++ handlersOfList cs
end

/-- The element `<Loader />`. -/
def loader : Element := .el "Loader" [] []

/-- The markup of lines 95-164: the fragment with the navigation bar, the
heading, the form (email input, password input, "Forgot Password?", submit
button) and the registration link. The block of lines 108-123 is a JSX
comment. -/
def loginForm : Element :=
  .el "" [] [
    .el "Navbar" [] [],
    .el "div" [.attr "className"
        "min-h-[120vh] md:min-h-screen flex justify-center items-center bg-c1"] [
      .el "ToastMessage" [] [],
      .el "div" [.attr "className" "flex items-center flex-col w-10/12 md:w-auto"] [
        .el "div" [.attr "className" "text-center mb-6"] [
          .el "div" [.attr "className" "text-4xl font-bold"] [
            .text "Login to Your Account"],
          .el "div" [.attr "className" "mt-3 text-c3"] [
            .text "Connect and chat with anyone, anywhere"]],
        .el "form" [
            .attr "className" "flex flex-col items-center gap-3 w-full max-w-md mt-5 px-5",
            .on "onSubmit" .handleSubmit] [
          .el "input" [
            .attr "type" "email",
            .attr "placeholder" "Email",
            .attr "className"
              "w-full h-14 bg-c5 rounded-xl outline-none border-none px-5 text-c3",
            .attr "autoComplete" "off",
            .on "onChange" .onEmailChange] [],
          .el "input" [
            .attr "type" "password",
            .attr "placeholder" "Password",
            .attr "className"
              "w-full h-14 bg-c5 rounded-xl outline-none border-none px-5 text-c3",
            .attr "autoComplete" "off"] [],
          .el "div" [.attr "className" "text-right w-full text-c3"] [
            .el "span" [.attr "className" "cursor-pointer", .on "onClick" .resetPassword] [
              .text "Forgot Password?"]],
          .el "button" [.attr "className"
              "mt-4 w-full h-14 rounded-xl outline-none text-base font-semibold bg-gradient-to-r from-indigo-500 via-purple-500 to-pink-500 transition duration-300 transform hover:scale-105"] [
            .text "Login to Your Account"]],
        .el "div" [.attr "className" "flex justify-center gap-1 text-c3 mt-5"] [
          .el "span" [] [.text "Not a member yet?"],
          .el "Link" [
            .attr "href" "/register",
            .attr "className"
              "font-semibold text-white underline underline-offset-2 cursor-pointer"] [
            .text "Register Now"]]]]]

/-- The condition of the returned conditional expression:
`isLoading || (!isLoading && !!currentUser)`. -/
def renderGuard (isLoading currentUser : JSVal) : JSVal :=
  jsOr isLoading (jsAnd (jsNot isLoading) (jsNot (jsNot currentUser)))

/-- What `Login` returns for the auth context `(isLoading, currentUser)`: the
loader when the guard is truthy, else the form. -/
def Login (isLoading currentUser : JSVal) : Element :=
  if toBoolean (renderGuard isLoading currentUser) then loader else loginForm

/-! ## Concrete environments -/

/-- An environment whose provider rejects every call with the given code. -/
def rejectingEnv (code : JSVal) : Env :=
  ⟨.obj 0, fun _ _ _ => .rejected ⟨code⟩, fun _ _ => .rejected ⟨code⟩,
    fun _ _ => .rejected ⟨code⟩⟩

/-- An environment whose provider accepts every call. -/
def acceptingEnv : Env :=
  ⟨.obj 0, fun _ _ _ => .resolved, fun _ _ => .resolved, fun _ _ => .resolved⟩

/-- A submit event of the rendered form: the email input, the password input
and the button, whose `value` is the empty string. -/
def sampleSubmit : SubmitEvent :=
  ⟨[⟨.str " Ada@Example.com "⟩, ⟨.str "s3cret"⟩, ⟨.str ""⟩]⟩

/-! ## Theorems -/

/-- Strict equality with a string holds for that very string value only. -/
theorem strictEq_str_iff (v : JSVal) (s : String) :
    strictEq v (.str s) = true ↔ v = .str s := by
  cases v <;> simp [strictEq]

/-- C1: the code `auth/user-not-found` is mapped to the literal
"User not found. Please check your email.". -/
theorem getFirebaseAuthErrorMessage_user_not_found :
    getFirebaseAuthErrorMessage (.str "auth/user-not-found")
      = "User not found. Please check your email." := by
  simp [getFirebaseAuthErrorMessage, strictEq]

/-- C2: the code `auth/wrong-password` is mapped to the literal
"Invalid password. Please try again.". -/
theorem getFirebaseAuthErrorMessage_wrong_password :
    getFirebaseAuthErrorMessage (.str "auth/wrong-password")
      = "Invalid password. Please try again." := by
  simp [getFirebaseAuthErrorMessage, strictEq]

/-- C3: every code that is strictly equal to neither `auth/user-not-found`
nor `auth/wrong-password` is mapped to "Authentication failed. Please try
again."; the function is total, and whatever the code, its result is one of
the three fixed messages. -/
theorem getFirebaseAuthErrorMessage_default (errorCode : JSVal)
    (h1 : strictEq errorCode (.str "auth/user-not-found") = false)
    (h2 : strictEq errorCode (.str "auth/wrong-password") = false) :
    getFirebaseAuthErrorMessage errorCode = "Authentication failed. Please try again."
      ∧ ∀ c : JSVal,
          getFirebaseAuthErrorMessage c ∈
            ["User not found. Please check your email.",
             "Invalid password. Please try again.",
             "Authentication failed. Please try again."] := by
  refine ⟨by simp [getFirebaseAuthErrorMessage, h1, h2], fun c => ?_⟩
  unfold getFirebaseAuthErrorMessage
  split
  · simp
  · split <;> simp

/-- The default message at an absent code, the empty string, a differently
cased spelling and an un-prefixed spelling. -/
theorem getFirebaseAuthErrorMessage_default_witness :
    getFirebaseAuthErrorMessage .undefined = "Authentication failed. Please try again."
      ∧ getFirebaseAuthErrorMessage (.str "") = "Authentication failed. Please try again."
      ∧ getFirebaseAuthErrorMessage (.str "AUTH/USER-NOT-FOUND")
          = "Authentication failed. Please try again."
      ∧ getFirebaseAuthErrorMessage (.str "wrong-password")
          = "Authentication failed. Please try again." :=
  ⟨(getFirebaseAuthErrorMessage_default .undefined rfl rfl).1,
   (getFirebaseAuthErrorMessage_default (.str "") (by decide) (by decide)).1,
   (getFirebaseAuthErrorMessage_default (.str "AUTH/USER-NOT-FOUND") (by decide) (by decide)).1,
   (getFirebaseAuthErrorMessage_default (.str "wrong-password") (by decide) (by decide)).1⟩


/-! ### Submit -/

/-- A form with at least two controls has a control at positions 0 and 1. -/
theorem two_fields (l : List FormField) (h : 2 ≤ l.length) :
    ∃ f0 f1 rest, l = f0 :: f1 :: rest := by
  match l, h with
  | f0 :: f1 :: rest, _ => exact ⟨f0, f1, rest, rfl⟩

/-- C4: on a submit event whose form has at least two controls, `handleSubmit`
first calls `preventDefault`, then the provider's sign-in with the auth
handle and the unmodified values of controls 0 and 1, and the trace holds
exactly one sign-in call whether the sign-in resolves or rejects. -/
theorem handleSubmit_signs_in_once (env : Env) (e : SubmitEvent)
    (h : 2 ≤ e.target.length) :
    ∃ f0 f1, e.target[0]? = some f0 ∧ e.target[1]? = some f1 ∧
      (handleSubmit env e).1.take 2
        = [Effect.preventDefault,
           Effect.signInWithEmailAndPassword env.auth f0.value f1.value] ∧
      signInCalls (handleSubmit env e).1 = [(env.auth, f0.value, f1.value)] := by
  obtain ⟨f0, f1, rest, hl⟩ := two_fields e.target h
  refine ⟨f0, f1, by simp [hl], by simp [hl], ?_, ?_⟩
  · cases hs : env.signInWithEmailAndPassword env.auth f0.value f1.value <;>
      simp [handleSubmit, hl, hs]
  · cases hs : env.signInWithEmailAndPassword env.auth f0.value f1.value <;>
      simp [handleSubmit, hl, hs, signInCalls]

/-- The sign-in receives the email with its blanks and capitals as typed. -/
theorem handleSubmit_signs_in_once_witness :
    2 ≤ sampleSubmit.target.length ∧
    ∃ f0 f1, sampleSubmit.target[0]? = some f0 ∧ sampleSubmit.target[1]? = some f1 ∧
      (handleSubmit acceptingEnv sampleSubmit).1.take 2
        = [Effect.preventDefault,
           Effect.signInWithEmailAndPassword acceptingEnv.auth f0.value f1.value] ∧
      signInCalls (handleSubmit acceptingEnv sampleSubmit).1
        = [(acceptingEnv.auth, f0.value, f1.value)] :=
  ⟨by decide, handleSubmit_signs_in_once acceptingEnv sampleSubmit (by decide)⟩

/-- C5: on a submit event that reaches the sign-in, a sign-in rejected with
code `c` gives exactly one toast, the error toast with text
`getFirebaseAuthErrorMessage c`, and `handleSubmit` returns normally; a
resolved sign-in gives no toast; so an error toast is shown if and only if
the sign-in fails. -/
theorem handleSubmit_toast_iff_failure (env : Env) (e : SubmitEvent)
    (h : 2 ≤ e.target.length) :
    ∃ f0 f1, e.target[0]? = some f0 ∧ e.target[1]? = some f1 ∧
      (∀ c, env.signInWithEmailAndPassword env.auth f0.value f1.value = .rejected ⟨c⟩ →
        toasts (handleSubmit env e).1 = [(.error, getFirebaseAuthErrorMessage c)] ∧
        (handleSubmit env e).2 = .returned) ∧
      (env.signInWithEmailAndPassword env.auth f0.value f1.value = .resolved →
        toasts (handleSubmit env e).1 = [] ∧ (handleSubmit env e).2 = .returned) ∧
      (errorToasts (handleSubmit env e).1 ≠ [] ↔
        env.signInWithEmailAndPassword env.auth f0.value f1.value ≠ .resolved) := by
  obtain ⟨f0, f1, rest, hl⟩ := two_fields e.target h
  refine ⟨f0, f1, by simp [hl], by simp [hl], ?_, ?_, ?_⟩
  · intro c hs
    simp [handleSubmit, hl, hs, toasts]
  · intro hs
    simp [handleSubmit, hl, hs, toasts]
  · cases hs : env.signInWithEmailAndPassword env.auth f0.value f1.value <;>
      simp [handleSubmit, hl, hs, errorToasts]

/-- A rejected sign-in on the sample form. -/
theorem handleSubmit_toast_iff_failure_witness :
    2 ≤ sampleSubmit.target.length ∧
    ∃ f0 f1, sampleSubmit.target[0]? = some f0 ∧ sampleSubmit.target[1]? = some f1 ∧
      (∀ c, (rejectingEnv (.str "auth/wrong-password")).signInWithEmailAndPassword
            (rejectingEnv (.str "auth/wrong-password")).auth f0.value f1.value
            = .rejected ⟨c⟩ →
        toasts (handleSubmit (rejectingEnv (.str "auth/wrong-password")) sampleSubmit).1
          = [(.error, getFirebaseAuthErrorMessage c)] ∧
        (handleSubmit (rejectingEnv (.str "auth/wrong-password")) sampleSubmit).2
          = .returned) ∧
      ((rejectingEnv (.str "auth/wrong-password")).signInWithEmailAndPassword
            (rejectingEnv (.str "auth/wrong-password")).auth f0.value f1.value
            = .resolved →
        toasts (handleSubmit (rejectingEnv (.str "auth/wrong-password")) sampleSubmit).1 = [] ∧
        (handleSubmit (rejectingEnv (.str "auth/wrong-password")) sampleSubmit).2
          = .returned) ∧
      (errorToasts (handleSubmit (rejectingEnv (.str "auth/wrong-password")) sampleSubmit).1
          ≠ [] ↔
        (rejectingEnv (.str "auth/wrong-password")).signInWithEmailAndPassword
            (rejectingEnv (.str "auth/wrong-password")).auth f0.value f1.value
          ≠ .resolved) :=
  ⟨by decide,
   handleSubmit_toast_iff_failure (rejectingEnv (.str "auth/wrong-password")) sampleSubmit
     (by decide)⟩

/-- The whole trace of a rejected and of a resolved submit of the sample form. -/
theorem handleSubmit_sample_trace :
    handleSubmit (rejectingEnv (.str "auth/wrong-password")) sampleSubmit
      = ([Effect.preventDefault,
          Effect.signInWithEmailAndPassword (.obj 0) (.str " Ada@Example.com ") (.str "s3cret"),
          Effect.toast .error "Invalid password. Please try again." none], .returned)
    ∧ handleSubmit acceptingEnv sampleSubmit
      = ([Effect.preventDefault,
          Effect.signInWithEmailAndPassword (.obj 0) (.str " Ada@Example.com ") (.str "s3cret")],
         .returned) := by
  constructor <;> rfl

/-! ### Redirect and render guard -/

/-- The redirect effect on a boolean loading flag. -/
theorem redirectEffect_bool (isLoading : Bool) (currentUser : JSVal) :
    redirectEffect (.bool isLoading) currentUser
      = if (!isLoading && toBoolean currentUser) = true then [Effect.routerPush "/"] else [] := by
  cases isLoading <;> simp [redirectEffect, jsAnd, jsNot, toBoolean, pushToHome]

/-- The render guard on a boolean loading flag. -/
theorem toBoolean_renderGuard_bool (isLoading : Bool) (currentUser : JSVal) :
    toBoolean (renderGuard (.bool isLoading) currentUser)
      = (isLoading || toBoolean currentUser) := by
  cases isLoading <;> simp [renderGuard, jsOr, jsAnd, jsNot, toBoolean]

/-- The loader and the form are different elements. -/
theorem loader_ne_loginForm : loader ≠ loginForm := by
  intro h
  have ht := congrArg Element.tag h
  simp [loader, loginForm, Element.tag] at ht

/-- What `Login` returns on a boolean loading flag. -/
theorem Login_bool (isLoading : Bool) (currentUser : JSVal) :
    Login (.bool isLoading) currentUser
      = if (isLoading || toBoolean currentUser) = true then loader else loginForm := by
  simp [Login, toBoolean_renderGuard_bool]

/-- C6: for every auth-context state, the redirect effect calls
`router.push("/")` if and only if `isLoading` is false and `currentUser` is
truthy, and does nothing otherwise: no redirect while loading, none without
a current user. -/
theorem redirectEffect_iff (isLoading : Bool) (currentUser : JSVal) :
    (redirectEffect (.bool isLoading) currentUser = [Effect.routerPush "/"]
        ↔ isLoading = false ∧ toBoolean currentUser = true)
    ∧ (redirectEffect (.bool isLoading) currentUser = []
        ↔ isLoading = true ∨ toBoolean currentUser = false) := by
  rw [redirectEffect_bool]
  cases isLoading <;> cases toBoolean currentUser <;> simp

/-- C7: for every auth-context state, `Login` returns the loader if and only
if `isLoading` is true or `currentUser` is truthy, and the form if and only
if `isLoading` is false and `currentUser` is falsy; the guard
`isLoading || (!isLoading && !!currentUser)` has the value of
`isLoading || !!currentUser`. -/
theorem Login_loader_iff (isLoading : Bool) (currentUser : JSVal) :
    (Login (.bool isLoading) currentUser = loader
        ↔ isLoading = true ∨ toBoolean currentUser = true)
    ∧ (Login (.bool isLoading) currentUser = loginForm
        ↔ isLoading = false ∧ toBoolean currentUser = false)
    ∧ renderGuard (.bool isLoading) currentUser
        = jsOr (.bool isLoading) (jsNot (jsNot currentUser)) := by
  have hne := loader_ne_loginForm
  refine ⟨?_, ?_, ?_⟩
  · rw [Login_bool]
    cases isLoading <;> cases toBoolean currentUser <;> simp [hne.symm]
  · rw [Login_bool]
    cases isLoading <;> cases toBoolean currentUser <;> simp [hne]
  · cases isLoading <;> simp [renderGuard, jsOr, jsAnd, jsNot, toBoolean]

/-- C10: for every auth-context state, a redirect implies the loader is
rendered, and a rendered form implies no redirect; the loader is rendered
without a redirect exactly when `isLoading` is true. -/
theorem redirect_excludes_form (isLoading : Bool) (currentUser : JSVal) :
    (redirectEffect (.bool isLoading) currentUser = [Effect.routerPush "/"]
        → Login (.bool isLoading) currentUser = loader)
    ∧ (Login (.bool isLoading) currentUser = loginForm
        → redirectEffect (.bool isLoading) currentUser = [])
    ∧ ((Login (.bool isLoading) currentUser = loader
          ∧ redirectEffect (.bool isLoading) currentUser = [])
        ↔ isLoading = true) := by
  have hne := loader_ne_loginForm
  rw [redirectEffect_bool, Login_bool]
  cases isLoading <;> cases toBoolean currentUser <;> simp [hne, hne.symm]

/-! ### Password reset -/

/-- C8, as stated, fails: with a provider that rejects the reset request for
`nobody@example.com`, `resetPassword` shows the error toast
"You may have entered the wrong email!". -/
theorem resetPassword_shows_error_toast :
    (rejectingEnv (.str "auth/user-not-found")).sendPasswordResetEmail
        (rejectingEnv (.str "auth/user-not-found")).auth (.str "nobody@example.com")
      = .rejected ⟨.str "auth/user-not-found"⟩
    ∧ errorToasts
        (resetPassword (rejectingEnv (.str "auth/user-not-found"))
          (.str "nobody@example.com")).1
      = ["You may have entered the wrong email!"] := by
  constructor <;> rfl

/-- C8, amended: password-reset errors are caught and surfaced to the user
as a fixed message only. For every email value, when `sendPasswordResetEmail`
fails inside `resetPassword`, exactly one error notification is shown, with
the fixed text "You may have entered the wrong email!" whatever the
provider's error, and `resetPassword` returns normally; the whole trace is
the pending toast "Generating reset link", the one reset request with the
auth handle and that email, and that error toast. -/
theorem resetPassword_failure_toasts (env : Env) (email : JSVal) (error : AuthError)
    (h : env.sendPasswordResetEmail env.auth email = .rejected error) :
    (resetPassword env email).1
      = [Effect.toast .loading "Generating reset link" (some 5000),
         Effect.sendPasswordResetEmail env.auth email,
         Effect.toast .error "You may have entered the wrong email!" (some 5000)]
    ∧ errorToasts (resetPassword env email).1 = ["You may have entered the wrong email!"]
    ∧ (resetPassword env email).2 = .returned := by
  simp [resetPassword, toastPromise, h, errorToasts]

/-- The failure toasts at a provider that rejects with `auth/invalid-email`. -/
theorem resetPassword_failure_toasts_witness :
    (resetPassword (rejectingEnv (.str "auth/invalid-email")) (.str "not-an-email")).1
      = [Effect.toast .loading "Generating reset link" (some 5000),
         Effect.sendPasswordResetEmail (rejectingEnv (.str "auth/invalid-email")).auth
           (.str "not-an-email"),
         Effect.toast .error "You may have entered the wrong email!" (some 5000)]
    ∧ errorToasts
        (resetPassword (rejectingEnv (.str "auth/invalid-email")) (.str "not-an-email")).1
      = ["You may have entered the wrong email!"]
    ∧ (resetPassword (rejectingEnv (.str "auth/invalid-email")) (.str "not-an-email")).2
      = .returned :=
  resetPassword_failure_toasts (rejectingEnv (.str "auth/invalid-email"))
    (.str "not-an-email") ⟨.str "auth/invalid-email"⟩ rfl

/-! ### Federated sign-in -/

/-- C9 fails on the code: when the form is shown (`isLoading` false,
`currentUser` null) the handlers bound in the returned tree are
`handleSubmit`, the inline `onChange` and `resetPassword`; `signInWithGoogle`
is bound nowhere, and no bound handler ever calls `signInWithPopup`, with the
Google provider, the Facebook provider or any other. -/
theorem Login_form_binds_no_popup_sign_in :
    Login (.bool false) .null = loginForm
    ∧ (Login (.bool false) .null).handlers
        = [Handler.handleSubmit, Handler.onEmailChange, Handler.resetPassword]
    ∧ Handler.signInWithGoogle ∉ (Login (.bool false) .null).handlers
    ∧ ∀ (env : Env) (email : JSVal) (submit : SubmitEvent) (change : ChangeEvent)
        (hd : Handler) (auth : JSVal) (provider : AuthProvider),
        hd ∈ (Login (.bool false) .null).handlers →
        Effect.signInWithPopup auth provider ∉ Handler.run env email submit change hd := by
  have hL : Login (.bool false) .null = loginForm := rfl
  have hH : loginForm.handlers
      = [Handler.handleSubmit, Handler.onEmailChange, Handler.resetPassword] := rfl
  refine ⟨hL, by rw [hL, hH], by rw [hL, hH]; decide, ?_⟩
  intro env email submit change hd auth provider hmem
  rw [hL, hH] at hmem
  simp only [List.mem_cons, List.mem_singleton, List.not_mem_nil, or_false] at hmem
  rcases hmem with rfl | rfl | rfl
  · simp only [Handler.run, handleSubmit]
    split
    · simp
    · split
      · simp
      · split <;> simp
  · simp [Handler.run]
  · simp only [Handler.run, resetPassword, toastPromise]
    cases env.sendPasswordResetEmail env.auth email <;> simp

end ConnectYou
